import Mathlib

/-!
Verification development for the model-configuration module of the paws
package (paws/components/model_loader.py).

The per-event likelihood-ratio transforms are shallowly embedded as
element-wise arithmetic over the rationals (each function in the source is
an element-wise tensor computation; its action on one event is a function
of scalars).  The model-assembly and configuration code is embedded as
executable Lean functions over explicit state: the file system is a list of
existing paths, loaded models are recorded in an explicit trace, and Python
exceptions become an explicit error type returned through Except.
-/

/-- Python exceptions raised by the embedded code. -/
inductive PyError
  | valueError (msg : String)
  | runtimeError (msg : String)
  | fileNotFoundError (msg : String)
  | typeError (msg : String)
  | unboundLocalError (localName : String)
  deriving DecidableEq, Repr

/-- Feature levels (paws.settings.FeatureLevel): high-level or low-level features. -/
inductive FeatureLevel
  | highLevel
  | lowLevel
  deriving DecidableEq, Repr

/-- Signal decay modes (two-prong "qq" or three-prong "qqq"). -/
inductive DecayMode
  | qq
  | qqq
  deriving DecidableEq, Repr

/-- Model types from paws.settings used by ModelLoader
(SEMI_WEAKLY, IDEAL_WEAKLY, PRIOR_RATIO and the ordinary supervised type). -/
inductive ModelType
  | supervised
  | semiWeakly
  | idealWeakly
  | priorRatio
  deriving DecidableEq, Repr

/-- Display name of a model type, used in error messages. -/
def ModelType.name : ModelType → String
  | .supervised => "supervised"
  | .semiWeakly => "semi_weakly"
  | .idealWeakly => "ideal_weakly"
  | .priorRatio => "prior_ratio"

/-- The state stored by ModelLoader.__init__ (the fields this development
needs).  __init__ stores the loss name verbatim into the private attribute
without running the validating property setter. -/
structure ModelLoaderState where
  featureLevel : FeatureLevel
  decayModes : List DecayMode
  sigmoidActivation : Bool
  loss : String
  useValidation : Bool
  deriving DecidableEq, Repr

/- ------------------------------------------------------------------ -/
/- Likelihood-ratio transform layers (source lines 487-531).          -/
/- They are written generically over the element-wise arithmetic so    -/
/- that the same definition serves the per-event rational semantics    -/
/- and the symbolic tensor graph built by the model assembler.         -/
/- ------------------------------------------------------------------ -/

/-- ModelLoader._get_one_signal_semi_weakly_layer:
LLR = kappa * fs_out / (1 - fs_out + epsilon);
LLR_xs = 1 + mu * (LLR - 1);
result is LLR_xs / (LLR_xs + 1 - mu) when bug_fix else LLR_xs / (LLR_xs + 1).
In the source bug_fix defaults to True. -/
def oneSignalSemiWeaklyLayer {α : Type} [Add α] [Sub α] [Mul α] [Div α] [One α]
    (fsOut mu kappa epsilon : α) (bugFix : Bool) : α :=
  let LLR := kappa * fsOut / (1 - fsOut + epsilon)
  let LLR_xs := 1 + mu * (LLR - 1)
  if bugFix then LLR_xs / (LLR_xs + 1 - mu) else LLR_xs / (LLR_xs + 1)

/-- ModelLoader._get_two_signal_semi_weakly_layer:
LLR_2 and LLR_3 from the per-mode supervised outputs, mixed by alpha. -/
def twoSignalSemiWeaklyLayer {α : Type} [Add α] [Sub α] [Mul α] [Div α] [One α]
    (fs2Out fs3Out mu alpha kappa2 kappa3 epsilon : α) (bugFix : Bool) : α :=
  let LLR_2 := kappa2 * fs2Out / (1 - fs2Out + epsilon)
  let LLR_3 := kappa3 * fs3Out / (1 - fs3Out + epsilon)
  let LLR_xs := 1 + mu * (alpha * LLR_3 + (1 - alpha) * LLR_2 - 1)
  if bugFix then LLR_xs / (LLR_xs + 1 - mu) else LLR_xs / (LLR_xs + 1)

/-- ModelLoader._get_one_signal_likelihood_layer: returns LLR_xs undivided. -/
def oneSignalLikelihoodLayer {α : Type} [Add α] [Sub α] [Mul α] [Div α] [One α]
    (fsOut mu kappa epsilon : α) : α :=
  let LLR := kappa * fsOut / (1 - fsOut + epsilon)
  let LLR_xs := 1 + mu * (LLR - 1)
  LLR_xs

/-- ModelLoader._get_two_signal_likelihood_layer: returns LLR_xs undivided. -/
def twoSignalLikelihoodLayer {α : Type} [Add α] [Sub α] [Mul α] [Div α] [One α]
    (fs2Out fs3Out mu alpha kappa2 kappa3 epsilon : α) : α :=
  let LLR_2 := kappa2 * fs2Out / (1 - fs2Out + epsilon)
  let LLR_3 := kappa3 * fs3Out / (1 - fs3Out + epsilon)
  let LLR_xs := 1 + mu * (alpha * LLR_3 + (1 - alpha) * LLR_2 - 1)
  LLR_xs

/-- C1: for every per-event value f_s, every mu, kappa and epsilon, the
one-signal weak-supervision transform computes
LLR = kappa * f_s / (1 - f_s + epsilon) and LLR_xs = 1 + mu * (LLR - 1),
and returns LLR_xs / (LLR_xs + 1 - mu) when bug_fix is true (the source
default) and LLR_xs / (LLR_xs + 1) when bug_fix is false. -/
theorem one_signal_semi_weakly_layer_formula (fs mu kappa epsilon : ℚ) :
    oneSignalSemiWeaklyLayer fs mu kappa epsilon true =
      (1 + mu * (kappa * fs / (1 - fs + epsilon) - 1)) /
        ((1 + mu * (kappa * fs / (1 - fs + epsilon) - 1)) + 1 - mu)
  ∧ oneSignalSemiWeaklyLayer fs mu kappa epsilon false =
      (1 + mu * (kappa * fs / (1 - fs + epsilon) - 1)) /
        ((1 + mu * (kappa * fs / (1 - fs + epsilon) - 1)) + 1) :=
  ⟨rfl, rfl⟩

/-- C3: for every f_s in (0,1) and every kappa and epsilon, the one-signal
transform at mu = 0 returns exactly 1/2 under both bug_fix variants,
independent of f_s and kappa. -/
theorem one_signal_layer_at_mu_zero (fs kappa epsilon : ℚ) (bugFix : Bool)
    (h1 : 0 < fs) (h2 : fs < 1) :
    oneSignalSemiWeaklyLayer fs 0 kappa epsilon bugFix = 1 / 2 := by
  cases bugFix <;> simp [oneSignalSemiWeaklyLayer] <;> norm_num

/-- Witness for C3 at f_s = 1/2, kappa = 7, epsilon = 1e-10, both variants. -/
theorem one_signal_layer_at_mu_zero_witness :
    (0 < (1/2 : ℚ)) ∧ ((1/2 : ℚ) < 1)
  ∧ oneSignalSemiWeaklyLayer (1/2 : ℚ) 0 7 (1e-10) true = 1 / 2
  ∧ oneSignalSemiWeaklyLayer (1/2 : ℚ) 0 7 (1e-10) false = 1 / 2 :=
  ⟨by norm_num, by norm_num,
   one_signal_layer_at_mu_zero (1/2) 7 (1e-10) true (by norm_num) (by norm_num),
   one_signal_layer_at_mu_zero (1/2) 7 (1e-10) false (by norm_num) (by norm_num)⟩

/-- C4: for all per-event values, mus, kappas, shared epsilon and the same
bug_fix setting, the two-signal transform with alpha = 1 equals the
one-signal transform applied to (f_s3, kappa_3), and with alpha = 0 equals
the one-signal transform applied to (f_s2, kappa_2). -/
theorem two_signal_layer_reduces_to_one_signal
    (fs2 fs3 mu kappa2 kappa3 epsilon : ℚ) (bugFix : Bool) :
    twoSignalSemiWeaklyLayer fs2 fs3 mu 1 kappa2 kappa3 epsilon bugFix =
      oneSignalSemiWeaklyLayer fs3 mu kappa3 epsilon bugFix
  ∧ twoSignalSemiWeaklyLayer fs2 fs3 mu 0 kappa2 kappa3 epsilon bugFix =
      oneSignalSemiWeaklyLayer fs2 mu kappa2 epsilon bugFix := by
  have hmix1 : ∀ L2 L3 : ℚ, (1 : ℚ) * L3 + (1 - 1) * L2 = L3 := by
    intro L2 L3; ring
  have hmix0 : ∀ L2 L3 : ℚ, (0 : ℚ) * L3 + (1 - 0) * L2 = L2 := by
    intro L2 L3; ring
  constructor <;> cases bugFix <;>
    simp only [twoSignalSemiWeaklyLayer, oneSignalSemiWeaklyLayer, hmix1, hmix0,
      if_true, if_false, Bool.false_eq_true, ite_false, ite_true]

/- ------------------------------------------------------------------ -/
/- Symbolic tensors and the model-assembly state.                      -/
/- ------------------------------------------------------------------ -/

/-- Symbolic per-event tensor expressions: the computation graph nodes
built by the model assembler.  Arithmetic nodes mirror the element-wise
tensor operations of the source; modelApp is the application of a model
loaded from a path to a list of input tensors; average is the
keras Average layer over a list of tensors. -/
inductive TExpr
  | input (featureName : String)
  | param (paramName : String)
  | const (q : ℚ)
  | concat (ts : List TExpr)
  | modelApp (path : String) (args : List TExpr)
  | average (ts : List TExpr)
  | add (a b : TExpr)
  | sub (a b : TExpr)
  | mul (a b : TExpr)
  | div (a b : TExpr)

instance : One TExpr := ⟨TExpr.const 1⟩
instance : Add TExpr := ⟨TExpr.add⟩
instance : Sub TExpr := ⟨TExpr.sub⟩
instance : Mul TExpr := ⟨TExpr.mul⟩
instance : Div TExpr := ⟨TExpr.div⟩

/-- A path argument that in Python may be a single string or a list of
strings (fs_model_path : str | List[str]). -/
inductive PathSpec
  | one (path : String)
  | many (paths : List String)
  deriving DecidableEq, Repr

/-- A kappa specification: a number, or a string
(either a symbolic request or a numeric literal). -/
inductive KappaVal
  | num (q : ℚ)
  | str (s : String)
  deriving DecidableEq, Repr

/-- Result of kappa resolution: a plain python float, or a per-event tensor
obtained from a prior-ratio model. -/
inductive KappaOut
  | scalar (q : ℚ)
  | tensor (t : TExpr)

/-- Broadcast a resolved kappa into the tensor graph (a python float is
broadcast element-wise by the framework). -/
def KappaOut.toTensor : KappaOut → TExpr
  | .scalar q => .const q
  | .tensor t => t

/-- Record of a model loaded from disk by the assembler: the path it was
loaded from, the display name assigned to it (if any), and whether all of
its layers were frozen after loading. -/
structure LoadedModel where
  path : String
  displayName : Option String
  frozen : Bool
  deriving DecidableEq, Repr

/-- Lowercase an ASCII letter; other characters are unchanged. -/
def asciiLowerChar (c : Char) : Char :=
  if 'A' ≤ c ∧ c ≤ 'Z' then Char.ofNat (c.toNat + 32) else c

/-- Models Python str.lower() for the ASCII strings this code base uses
as loss names and kappa specifications. -/
def pyLower (s : String) : String :=
  String.mk (s.data.map asciiLowerChar)

/-- Split a character list on a separator character; like Python
str.split(sep), empty segments are kept. -/
def splitCharList (sep : Char) : List Char → List (List Char)
  | [] => [[]]
  | c :: rest =>
    match splitCharList sep rest with
    | h :: t => if c = sep then [] :: h :: t else (c :: h) :: t
    | [] => [[c]]

/-- Join character lists with a separator character. -/
def joinWith (sep : Char) : List (List Char) → List Char
  | [] => []
  | [x] => x
  | x :: xs => x ++ sep :: joinWith sep xs

/-- Models POSIX os.path.dirname for the plain relative or absolute paths
used by this code base (no trailing slashes): everything before the last
slash, or the empty string when there is no slash. -/
def osDirname (p : String) : String :=
  String.mk (joinWith '/' ((splitCharList '/' p.data).dropLast))

/-- Models POSIX os.path.join for two components as used here: the second
component wins when absolute, the first is returned joined by a slash
otherwise (no trailing-slash inputs occur in this code base). -/
def osJoin (a b : String) : String :=
  if a = "" then b
  else if (match b.data with | c :: _ => c == '/' | [] => false) then b
  else a ++ "/" ++ b

/-- Parse a non-empty all-digit character list as a natural number. -/
def digitsToNat (cs : List Char) : Option Nat :=
  if cs ≠ [] ∧ cs.all Char.isDigit then
    some (cs.foldl (fun acc c => 10 * acc + (c.toNat - 48)) 0)
  else none

/-- Models Python float() applied to a string, for the plain decimal
literals that can occur as kappa tokens (optional minus sign, digits,
optional fractional part).  Other accepted Python formats (exponents,
leading or trailing dots, whitespace, inf or nan) are not produced by this
code base and are mapped to a parse failure. -/
def parsePyFloat (s : String) : Option ℚ :=
  let core : List Char → Option ℚ := fun t =>
    match splitCharList '.' t with
    | [ip] => (digitsToNat ip).map (fun n => (n : ℚ))
    | [ip, fp] =>
      match digitsToNat ip, digitsToNat fp with
      | some i, some f => some ((i : ℚ) + (f : ℚ) / (10 : ℚ) ^ fp.length)
      | _, _ => none
    | _ => none
  match s.data with
  | '-' :: rest => (core rest).map (fun v => -v)
  | cs => core cs

/-- Models quickstats split_str with sep = "," and remove_empty = True:
split on the separator and drop empty tokens. -/
def splitStr (s : String) : List String :=
  (((splitCharList ',' s.data).map String.mk).filter (fun t => ¬ t = ""))

/-- The local helper get_kappa_out defined inside
ModelLoader._get_semi_weakly_model (source lines 594-612).  A numeric value
is returned as a plain float with no file access.  The strings "inferred"
and "sampled" (after lowercasing) resolve a sibling path of the supervised
model path: the directory of that path joined with the basename given by
the external path manager for the "model_prior_ratio" file kind keyed by
the sampling method.  If the sibling path does not exist the function
raises FileNotFoundError; otherwise it loads the model there, optionally
renames it, freezes all of its layers and returns its evaluation on the
concatenated mass parameters.  Any other string is converted by float().
The file system is modelled as the list of existing paths, and the second
component of a successful result is the list of models loaded from disk. -/
def getKappaOut (fsys : List String) (priorRatioBasename : String → String)
    (massParams : TExpr) (val : KappaVal) (supervisedModelPath : PathSpec)
    (modelName : Option String) :
    Except PyError (KappaOut × List LoadedModel) :=
  match val with
  | .num q => .ok (.scalar q, [])
  | .str s =>
    let v := pyLower s
    if v = "inferred" ∨ v = "sampled" then
      match supervisedModelPath with
      | .many _ =>
        .error (.typeError "expected str, bytes or os.PathLike object, not list")
      | .one p =>
        let basename := priorRatioBasename v
        let dirname := osDirname p
        let modelPath := osJoin dirname basename
        if fsys.contains modelPath then
          .ok (.tensor (.modelApp modelPath [massParams]),
               [{ path := modelPath, displayName := modelName, frozen := true }])
        else
          .error (.fileNotFoundError
            ("prior ratio model path does not exist: " ++ modelPath))
    else
      match parsePyFloat v with
      | some q => .ok (.scalar q, [])
      | none => .error (.valueError ("could not convert string to float: " ++ v))

/-- Helper for _get_prior_out: load every model in the list (the external
persistence service fails with a not-found condition on a missing path),
freeze each and give it the display name prefixed by its 1-based index.
Returns the loaded models alongside the partial trace of models that had
already been loaded when a later load fails. -/
def loadAllFrozen (fsys : List String) (displayBase : String) :
    List String → Nat → Except PyError (List LoadedModel) × List LoadedModel
  | [], _ => (.ok [], [])
  | p :: rest, i =>
    if fsys.contains p then
      let lm : LoadedModel :=
        { path := p, displayName := some (displayBase ++ "_" ++ toString i),
          frozen := true }
      match loadAllFrozen fsys displayBase rest (i + 1) with
      | (.ok ms, tr) => (.ok (lm :: ms), lm :: tr)
      | (.error e, tr) => (.error e, lm :: tr)
    else
      (.error (.fileNotFoundError ("no such model file: " ++ p)), [])

/-- ModelLoader._get_prior_out (source lines 533-548): listify the path
argument, load and freeze every model, rename each to name_i, and return
the Average layer applied to their outputs on x.  The second component is
the trace of models loaded from disk (also on failure). -/
def getPriorOut (fsys : List String) (x : List TExpr) (modelPaths : PathSpec)
    (displayBase : String) : Except PyError TExpr × List LoadedModel :=
  let paths := match modelPaths with | .one s => [s] | .many l => l
  match loadAllFrozen fsys displayBase paths 1 with
  | (.ok ms, tr) =>
    (.ok (TExpr.average (ms.map (fun m => TExpr.modelApp m.path x))), tr)
  | (.error e, tr) => (.error e, tr)

/-- A single-parameter weight model as built by get_single_parameter_model:
one scalar weight, initialized to initValue, passed through the activation
resolved externally by the parameter name, with an optional regularizer
also resolved externally by name. -/
structure ParamModel where
  modelName : String
  activationKey : String
  initValue : ℚ
  hasRegularizer : Bool
  deriving DecidableEq, Repr

/-- ModelLoader.get_semi_weakly_weights (source lines 434-485): builds the
dictionary of single-parameter weight models.  m1 and m2 are always built;
mu and alpha only when supplied.  Regularizers are resolved per parameter
name when use_regularizer is true.  The use_sigmoid argument is accepted
but does not occur in the body of the source function. -/
def getSemiWeaklyWeights (m1 m2 : ℚ) (mu alpha : Option ℚ)
    (useSigmoid useRegularizer : Bool) : List (String × ParamModel) :=
  let mk : String → ℚ → ParamModel := fun n v =>
    { modelName := n, activationKey := n, initValue := v,
      hasRegularizer := useRegularizer }
  let base := [("m1", mk "m1" m1), ("m2", mk "m2" m2)]
  let withMu := match mu with
    | some v => base ++ [("mu", mk "mu" v)]
    | none => base
  match alpha with
  | some v => withMu ++ [("alpha", mk "alpha" v)]
  | none => withMu

/-- Loss-function objects returned by get_loss_fn.  scaledBCE stands for
ScaledBinaryCrossentropy with offset -log 2 and scale 1000; mse is the
literal string "MSE" used by the prior-ratio training config. -/
inductive LossFn
  | binaryCrossentropy
  | scaledBCE
  | scaledNLL (offset scale : ℚ)
  | mse
  deriving DecidableEq, Repr

/-- ModelLoader.get_loss_fn (source lines 150-162).  For "bce": the scaled
variant for semi-weakly and ideal-weakly model types, the plain string
otherwise.  For "nll": RuntimeError when a model type is supplied and it is
not the semi-weakly type, the ScaledNLLLoss object otherwise.  Any other
stored loss name raises ValueError. -/
def getLossFn (st : ModelLoaderState) (modelType : Option ModelType) :
    Except PyError LossFn :=
  if st.loss = "bce" then
    match modelType with
    | some mt =>
      if mt = ModelType.semiWeakly ∨ mt = ModelType.idealWeakly then
        .ok LossFn.scaledBCE
      else .ok LossFn.binaryCrossentropy
    | none => .ok LossFn.binaryCrossentropy
  else if st.loss = "nll" then
    match modelType with
    | some mt =>
      if mt = ModelType.semiWeakly then .ok (LossFn.scaledNLL 0 1)
      else
        .error (.runtimeError
          ("NLL loss is only allowed for semi-weakly models, not "
            ++ mt.name ++ "."))
    | none => .ok (LossFn.scaledNLL 0 1)
  else .error (.valueError ("Invalid name for loss function: " ++ st.loss))

/-- ModelLoader.__init__ (source lines 35-85): stores the configuration and
assigns the private attribute holding the loss name directly
(self underscore loss), bypassing the validating loss property setter, so no
validation of the loss name happens at construction time and construction
never raises for an invalid loss name. -/
def modelLoaderInit (featureLevel : FeatureLevel) (decayModes : List DecayMode)
    (sigmoidActivation : Bool) (loss : String) (useValidation : Bool) :
    Except PyError ModelLoaderState :=
  .ok { featureLevel := featureLevel, decayModes := decayModes,
        sigmoidActivation := sigmoidActivation, loss := loss,
        useValidation := useValidation }

/-- The loss property setter (source lines 91-97): lowercases the value and
raises ValueError unless it is "bce" or "nll".  This runs only on explicit
assignment to the loss property, not inside __init__. -/
def lossSetter (st : ModelLoaderState) (value : String) :
    Except PyError ModelLoaderState :=
  let v := pyLower value
  if v = "bce" ∨ v = "nll" then .ok { st with loss := v }
  else
    .error (.valueError
      ("Invalid name for loss function: " ++ v
        ++ ". Please choose between \"bce\" and \"nll\"."))

/-- A keras model assembled by the builder, identified by its display name
and its output tensor. -/
structure NamedModel where
  modelName : String
  output : TExpr

/-- The artifacts produced by a successful run of
ModelLoader._get_semi_weakly_model: the returned weak-supervision weight
model, the sub-models stored on the loader for introspection, and the
parameter weight models stored as semi_weakly_weight_models. -/
structure SemiWeaklyBuild where
  wsModel : NamedModel
  subModels : List NamedModel
  weightModels : List (String × ParamModel)

/-- ModelLoader._get_semi_weakly_model (source lines 550-672), embedded as
an executable function.  Inputs beyond the source arguments: fsys is the
list of paths existing on disk, priorRatioBasename is the external path
manager resolving the prior-ratio model basename from the sampling method,
and trainFeatures is the feature list returned by the external
_get_train_features for the semi-weakly model type.  The result pairs the
returned model (or the Python exception raised) with the trace of models
loaded from disk, in order.

The function mirrors the source control flow: build the parameter weight
models, form mass_params from m1 and m2, raise ValueError when more than
one decay mode is configured but no second supervised path is given, then
branch on the number of decay modes.  In the single-signal branch the local
variable kappa_out is assigned (source line 621) and the LLR and Supervised
sub-models are built from it.  In the multi-signal branch the source
assigns kappa_2_out and kappa_3_out but never kappa_out, yet line 663 reads
kappa_out to build LLR_2; Python therefore raises UnboundLocalError there,
after the supervised models have been loaded and the weak-supervision
output has been formed.  The embedding models this unbound local
explicitly with an Option that is none on that path. -/
def getSemiWeaklyModelImpl (st : ModelLoaderState) (fsys : List String)
    (priorRatioBasename : String → String) (trainFeatures : List String)
    (fsModelPath : PathSpec) (m1 m2 mu alpha : ℚ) (kappa : KappaVal)
    (fsModelPath2 : Option PathSpec) (epsilon : ℚ)
    (bugFix useSigmoid useRegularizer : Bool) :
    Except PyError SemiWeaklyBuild × List LoadedModel :=
  let weights :=
    getSemiWeaklyWeights m1 m2 (some mu) (some alpha) useSigmoid useRegularizer
  let m1Out := TExpr.param "m1"
  let m2Out := TExpr.param "m2"
  let muOut := TExpr.param "mu"
  let alphaOut := TExpr.param "alpha"
  let massParams := TExpr.concat [m1Out, m2Out]
  let trainInputs := trainFeatures.map TExpr.input
  let fsInputs := trainInputs ++ [massParams]
  -- The local kappa_out: only the single-signal branch assigns it.
  let kappaOutLocal : Option TExpr := none
  let multiSignal := st.decayModes.length > 1
  if multiSignal then
    match fsModelPath2 with
    | none =>
      (.error (.valueError
        "fs_model_path_2 cannot be None when multiple signals are considered"),
       [])
    | some path2 =>
      let kappaPair : Except PyError (KappaVal × KappaVal) :=
        match kappa with
        | .str s =>
          match splitStr s with
          | [t] => .ok (.str t, .str t)
          | [t2, t3] => .ok (.str t2, .str t3)
          | _ => .error (.valueError ("failed to interpret kappa value: " ++ s))
        | .num q => .ok (.num q, .num q)
      match kappaPair with
      | .error e => (.error e, [])
      | .ok (kappa2, kappa3) =>
        match getKappaOut fsys priorRatioBasename massParams kappa2 fsModelPath
            (some "PriorRatioNet_2") with
        | .error e => (.error e, [])
        | .ok (kappa2Out, loads1) =>
          match getKappaOut fsys priorRatioBasename massParams kappa3 path2
              (some "PriorRatioNet_3") with
          | .error e => (.error e, loads1)
          | .ok (kappa3Out, loads2) =>
            match getPriorOut fsys fsInputs fsModelPath "prior_2prong" with
            | (.error e, loads3) => (.error e, loads1 ++ loads2 ++ loads3)
            | (.ok fs2Out, loads3) =>
              match getPriorOut fsys fsInputs path2 "prior_3prong" with
              | (.error e, loads4) =>
                (.error e, loads1 ++ loads2 ++ loads3 ++ loads4)
              | (.ok fs3Out, loads4) =>
                let loads := loads1 ++ loads2 ++ loads3 ++ loads4
                let wsOut :=
                  if ¬ st.loss = "nll" then
                    twoSignalSemiWeaklyLayer fs2Out fs3Out muOut alphaOut
                      kappa2Out.toTensor kappa3Out.toTensor
                      (TExpr.const epsilon) bugFix
                  else
                    twoSignalLikelihoodLayer fs2Out fs3Out muOut alphaOut
                      kappa2Out.toTensor kappa3Out.toTensor
                      (TExpr.const epsilon)
                -- Source line 663 reads the local kappa_out, which is
                -- assigned only in the single-signal branch (line 621):
                -- Python raises UnboundLocalError here.
                match kappaOutLocal with
                | none => (.error (.unboundLocalError "kappa_out"), loads)
                | some kappaOut =>
                  let llr2 :=
                    kappaOut * fs2Out / (1 - fs2Out + TExpr.const 1e-10)
                  let llr3 :=
                    kappaOut * fs3Out / (1 - fs3Out + TExpr.const 1e-10)
                  (.ok { wsModel := { modelName := "SemiWeakly", output := wsOut },
                         subModels :=
                           [{ modelName := "TwoProngLLR", output := llr2 },
                            { modelName := "ThreeProngLLR", output := llr3 },
                            { modelName := "TwoProngSupervised", output := fs2Out },
                            { modelName := "ThreeProngSupervised", output := fs3Out }],
                         weightModels := weights },
                   loads)
  else
    match getPriorOut fsys fsInputs fsModelPath "prior" with
    | (.error e, loads1) => (.error e, loads1)
    | (.ok fsOut, loads1) =>
      match getKappaOut fsys priorRatioBasename massParams kappa fsModelPath
          none with
      | .error e => (.error e, loads1)
      | .ok (kOut, loads2) =>
        -- Source line 621: the single-signal branch assigns kappa_out.
        let kappaOutLocal := some kOut.toTensor
        match kappaOutLocal with
        | none => (.error (.unboundLocalError "kappa_out"), loads1 ++ loads2)
        | some kappaOut =>
          let wsOut :=
            if ¬ st.loss = "nll" then
              oneSignalSemiWeaklyLayer fsOut muOut kappaOut
                (TExpr.const epsilon) bugFix
            else
              oneSignalLikelihoodLayer fsOut muOut kappaOut (TExpr.const epsilon)
          let llr := kappaOut * fsOut / (1 - fsOut + TExpr.const 1e-10)
          (.ok { wsModel := { modelName := "SemiWeakly", output := wsOut },
                 subModels :=
                   [{ modelName := "LLR", output := llr },
                    { modelName := "Supervised", output := fsOut }],
                 weightModels := weights },
           loads1 ++ loads2)

/-- ModelLoader.get_semi_weakly_model (source lines 677-732): collects its
arguments and runs _get_semi_weakly_model once, inside the external
distribution-strategy scope when one is set.  The scope is an opaque
context manager that replicates construction across devices without
changing the computed graph, so the embedding is the single invocation. -/
def getSemiWeaklyModel (st : ModelLoaderState) (fsys : List String)
    (priorRatioBasename : String → String) (trainFeatures : List String)
    (fsModelPath : PathSpec) (m1 m2 mu alpha : ℚ) (kappa : KappaVal)
    (fsModelPath2 : Option PathSpec) (epsilon : ℚ)
    (bugFix useSigmoid useRegularizer : Bool) :
    Except PyError SemiWeaklyBuild × List LoadedModel :=
  getSemiWeaklyModelImpl st fsys priorRatioBasename trainFeatures fsModelPath
    m1 m2 mu alpha kappa fsModelPath2 epsilon bugFix useSigmoid useRegularizer

/- ------------------------------------------------------------------ -/
/- Training configuration (source lines 164-280).                      -/
/- ------------------------------------------------------------------ -/

/-- Save-frequency values understood by LoggerSaveMode.parse. -/
inductive SaveFreq
  | epoch
  | batch
  | train
  deriving DecidableEq, Repr

/-- Optimizer options dictionary. -/
structure OptimizerConfig where
  learningRate : ℚ
  clipvalue : Option ℚ := none
  clipnorm : Option ℚ := none
  deriving DecidableEq, Repr

/-- Learning-rate scheduler callback parameters. -/
structure LRSchedulerConfig where
  initialLr : ℚ
  lrDecayFactor : ℚ
  patience : Nat
  minLr : ℚ
  verbose : Option Bool := none
  deriving DecidableEq, Repr

/-- Early-stopping callback parameters. -/
structure EarlyStoppingConfig where
  monitor : String
  patience : Nat
  restoreBestWeights : Bool
  alwaysRestoreBestWeights : Bool
  deriving DecidableEq, Repr

/-- Model-checkpoint callback parameters. -/
structure ModelCheckpointConfig where
  saveWeightsOnly : Bool
  saveBestOnly : Bool
  saveFreq : SaveFreq
  deriving DecidableEq, Repr

/-- Metrics-logger callback parameters. -/
structure MetricsLoggerConfig where
  saveFreq : SaveFreq
  deriving DecidableEq, Repr

/-- Weights-logger callback parameters. -/
structure WeightsLoggerConfig where
  saveFreq : SaveFreq
  displayWeight : Bool
  deriving DecidableEq, Repr

/-- The callbacks dictionary of a training configuration; a none field
models the absence of the corresponding key. -/
structure CallbacksConfig where
  lrScheduler : Option LRSchedulerConfig
  earlyStopping : EarlyStoppingConfig
  modelCheckpoint : Option ModelCheckpointConfig
  metricsLogger : Option MetricsLoggerConfig
  weightsLogger : Option WeightsLoggerConfig
  deriving DecidableEq, Repr

/-- The training configuration dictionary returned by get_train_config;
a none metrics field models the absence of the metrics key. -/
structure TrainConfig where
  lossValue : LossFn
  metrics : Option (List String)
  epochs : Nat
  optimizer : String
  optimizerConfig : OptimizerConfig
  checkpointDir : String
  callbacks : CallbacksConfig
  deriving DecidableEq, Repr

/-- ModelLoader.get_train_config (source lines 164-280).  The prior-ratio
model type returns a fixed configuration with MSE loss, a 3000-epoch
budget, early stopping on "val_loss" with patience 200 and no other
callbacks.  Otherwise epochs and patience follow the feature level, the
early-stopping monitor is "val_loss" when use_validation and "loss"
otherwise, the loss comes from get_loss_fn (which can raise), the
model-checkpoint entry is dropped when the model save frequency parses to
the whole-training mode, and the semi-weakly model type adds a weights
logger, optional gradient clipping, patience 30 for nll and 20 otherwise,
and a verbose learning-rate scheduler. -/
def getTrainConfig (st : ModelLoaderState) (checkpointDir : String)
    (modelType : Option ModelType) (weightClipping : Bool)
    (epochs : Option Nat) (modelSaveFreq metricSaveFreq weightSaveFreq : SaveFreq) :
    Except PyError TrainConfig :=
  if modelType = some ModelType.priorRatio then
    .ok { lossValue := LossFn.mse, metrics := none, epochs := epochs.getD 3000,
          optimizer := "Adam", optimizerConfig := { learningRate := 0.001 },
          checkpointDir := checkpointDir,
          callbacks :=
            { lrScheduler := none,
              earlyStopping :=
                { monitor := "val_loss", patience := 200,
                  restoreBestWeights := true, alwaysRestoreBestWeights := true },
              modelCheckpoint := none, metricsLogger := none,
              weightsLogger := none } }
  else
    let pair : Nat × Nat :=
      match st.featureLevel with
      | .highLevel => (epochs.getD 200, 20)
      | .lowLevel => (epochs.getD 20, 5)
    let monitorMetric := if st.useValidation then "val_loss" else "loss"
    match getLossFn st modelType with
    | .error e => .error e
    | .ok lossFn =>
      let config : TrainConfig :=
        { lossValue := lossFn, metrics := some ["accuracy"], epochs := pair.1,
          optimizer := "Adam", optimizerConfig := { learningRate := 0.01 },
          checkpointDir := checkpointDir,
          callbacks :=
            { lrScheduler := some
                { initialLr := 0.001, lrDecayFactor := 0.5, patience := 5,
                  minLr := 1e-6, verbose := none },
              earlyStopping :=
                { monitor := monitorMetric, patience := pair.2,
                  restoreBestWeights := true, alwaysRestoreBestWeights := true },
              modelCheckpoint := some
                { saveWeightsOnly := true, saveBestOnly := false,
                  saveFreq := modelSaveFreq },
              metricsLogger := some { saveFreq := metricSaveFreq },
              weightsLogger := none } }
      let config :=
        if modelSaveFreq = SaveFreq.train then
          { config with callbacks :=
              { config.callbacks with modelCheckpoint := none } }
        else config
      if modelType = some ModelType.semiWeakly then
        let lr : ℚ := 0.01
        let optCfg :=
          if weightClipping then
            { learningRate := lr, clipvalue := some 0.0001,
              clipnorm := some 0.0001 }
          else config.optimizerConfig
        let esPatience : Nat := if st.loss = "nll" then 30 else 20
        .ok { config with
              optimizerConfig := optCfg,
              callbacks :=
                { config.callbacks with
                  weightsLogger := some
                    { saveFreq := weightSaveFreq, displayWeight := true },
                  earlyStopping :=
                    { config.callbacks.earlyStopping with patience := esPatience },
                  lrScheduler := some
                    { initialLr := lr, lrDecayFactor := 0.5, patience := 5,
                      minLr := 1e-6, verbose := some true } } }
      else .ok config

/- ------------------------------------------------------------------ -/
/- Theorems about the model assembler.                                 -/
/- ------------------------------------------------------------------ -/

/-- C5: when more than one decay mode is configured and no second
supervised-model path is supplied, semi-weakly model construction fails
with ValueError, and the trace of models loaded from disk is empty: the
failure happens before any model file is loaded. -/
theorem multi_signal_missing_second_path_errors (st : ModelLoaderState)
    (fsys : List String) (priorRatioBasename : String → String)
    (trainFeatures : List String) (fsModelPath : PathSpec)
    (m1 m2 mu alpha : ℚ) (kappa : KappaVal) (epsilon : ℚ)
    (bugFix useSigmoid useRegularizer : Bool)
    (h : st.decayModes.length > 1) :
    getSemiWeaklyModelImpl st fsys priorRatioBasename trainFeatures fsModelPath
      m1 m2 mu alpha kappa none epsilon bugFix useSigmoid useRegularizer
      = (.error (.valueError
          "fs_model_path_2 cannot be None when multiple signals are considered"),
         []) := by
  simp only [getSemiWeaklyModelImpl]
  rw [if_pos h]

/-- Witness for C5: a loader configured with both decay modes, a non-empty
file system, and no second model path. -/
theorem multi_signal_missing_second_path_errors_witness :
    ([DecayMode.qq, DecayMode.qqq].length > 1)
  ∧ getSemiWeaklyModelImpl
      { featureLevel := .highLevel, decayModes := [.qq, .qqq],
        sigmoidActivation := false, loss := "bce", useValidation := true }
      ["models/fs2prong.keras"] (fun v => "prior_ratio_" ++ v ++ ".keras")
      ["jet_features"] (.one "models/fs2prong.keras")
      0 0 (1/2) (1/2) (.num 1) none (1e-5) true false true
      = (.error (.valueError
          "fs_model_path_2 cannot be None when multiple signals are considered"),
         []) :=
  ⟨by decide,
   multi_signal_missing_second_path_errors
     { featureLevel := .highLevel, decayModes := [.qq, .qqq],
       sigmoidActivation := false, loss := "bce", useValidation := true }
     ["models/fs2prong.keras"] (fun v => "prior_ratio_" ++ v ++ ".keras")
     ["jet_features"] (.one "models/fs2prong.keras")
     0 0 (1/2) (1/2) (.num 1) (1e-5) true false true (by decide)⟩

/-- C2 is a code bug: with two decay modes configured and a second
supervised-model path supplied (both paths existing on disk, numeric
kappa), construction does not produce the five named artifacts; it raises
UnboundLocalError for kappa_out, because source line 663 reads the local
kappa_out that only the single-signal branch assigns.  The two supervised
models have already been loaded (and frozen) when the failure occurs. -/
theorem two_signal_build_raises_unbound_local :
    getSemiWeaklyModelImpl
      { featureLevel := .highLevel, decayModes := [.qq, .qqq],
        sigmoidActivation := false, loss := "bce", useValidation := true }
      ["models/fs2prong.keras", "models/fs3prong.keras"]
      (fun v => "prior_ratio_" ++ v ++ ".keras")
      ["jet_features"] (.one "models/fs2prong.keras")
      0 0 (1/2) (1/2) (.num 1) (some (.one "models/fs3prong.keras"))
      (1e-5) true false true
      = (.error (.unboundLocalError "kappa_out"),
         [{ path := "models/fs2prong.keras",
            displayName := some "prior_2prong_1", frozen := true },
          { path := "models/fs3prong.keras",
            displayName := some "prior_3prong_1", frozen := true }]) := by
  rfl

/-- C6: resolution of the kappa specification.  A numeric specification is
returned as a plain float with no file access.  Each of the literal
strings "inferred" and "sampled" resolves the sibling path of the
supervised model path (directory of that path, basename from the external
naming policy keyed by the literal); when that path does not exist on disk
the resolution raises FileNotFoundError, and when it exists the resolved
value is the loaded (and frozen) model evaluated on the concatenated mass
parameters: a per-event tensor, not a plain float. -/
theorem get_kappa_out_resolution (fsys : List String)
    (priorRatioBasename : String → String) (massParams : TExpr)
    (p : String) (modelName : Option String) (lit : String)
    (hlit : lit = "inferred" ∨ lit = "sampled") :
    (∀ q : ℚ, getKappaOut fsys priorRatioBasename massParams (KappaVal.num q)
        (PathSpec.one p) modelName = .ok (KappaOut.scalar q, []))
  ∧ (osJoin (osDirname p) (priorRatioBasename lit) ∉ fsys →
      getKappaOut fsys priorRatioBasename massParams (KappaVal.str lit)
        (PathSpec.one p) modelName
        = .error (PyError.fileNotFoundError
            ("prior ratio model path does not exist: "
              ++ osJoin (osDirname p) (priorRatioBasename lit))))
  ∧ (osJoin (osDirname p) (priorRatioBasename lit) ∈ fsys →
      getKappaOut fsys priorRatioBasename massParams (KappaVal.str lit)
        (PathSpec.one p) modelName
        = .ok (KappaOut.tensor
            (TExpr.modelApp
              (osJoin (osDirname p) (priorRatioBasename lit)) [massParams]),
            [{ path := osJoin (osDirname p) (priorRatioBasename lit),
               displayName := modelName, frozen := true }])) := by
  have hinf : pyLower "inferred" = "inferred" := by decide
  have hsam : pyLower "sampled" = "sampled" := by decide
  rcases hlit with h | h <;> subst h <;>
    refine ⟨fun q => rfl, fun hm => ?_, fun hm => ?_⟩ <;>
    simp [getKappaOut, hinf, hsam, hm]

/-- Witness for C6: concrete resolutions for a numeric specification and
for both literals, with the sibling paths
models/prior_ratio_inferred.keras and models/prior_ratio_sampled.keras
present and absent. -/
theorem get_kappa_out_resolution_witness :
    getKappaOut ["models/prior_ratio_inferred.keras"]
      (fun v => "prior_ratio_" ++ v ++ ".keras") (TExpr.param "mass")
      (KappaVal.num 2) (PathSpec.one "models/fs.keras") none
      = .ok (KappaOut.scalar 2, [])
  ∧ getKappaOut ["models/prior_ratio_inferred.keras"]
      (fun v => "prior_ratio_" ++ v ++ ".keras") (TExpr.param "mass")
      (KappaVal.str "inferred") (PathSpec.one "models/fs.keras") none
      = .ok (KappaOut.tensor
          (TExpr.modelApp "models/prior_ratio_inferred.keras" [TExpr.param "mass"]),
          [{ path := "models/prior_ratio_inferred.keras",
             displayName := none, frozen := true }])
  ∧ getKappaOut [] (fun v => "prior_ratio_" ++ v ++ ".keras")
      (TExpr.param "mass") (KappaVal.str "inferred")
      (PathSpec.one "models/fs.keras") none
      = .error (PyError.fileNotFoundError
          "prior ratio model path does not exist: models/prior_ratio_inferred.keras")
  ∧ getKappaOut ["models/prior_ratio_sampled.keras"]
      (fun v => "prior_ratio_" ++ v ++ ".keras") (TExpr.param "mass")
      (KappaVal.str "sampled") (PathSpec.one "models/fs.keras") none
      = .ok (KappaOut.tensor
          (TExpr.modelApp "models/prior_ratio_sampled.keras" [TExpr.param "mass"]),
          [{ path := "models/prior_ratio_sampled.keras",
             displayName := none, frozen := true }])
  ∧ getKappaOut [] (fun v => "prior_ratio_" ++ v ++ ".keras")
      (TExpr.param "mass") (KappaVal.str "sampled")
      (PathSpec.one "models/fs.keras") none
      = .error (PyError.fileNotFoundError
          "prior ratio model path does not exist: models/prior_ratio_sampled.keras") :=
  ⟨(get_kappa_out_resolution ["models/prior_ratio_inferred.keras"]
      (fun v => "prior_ratio_" ++ v ++ ".keras") (TExpr.param "mass")
      "models/fs.keras" none "inferred" (Or.inl rfl)).1 2,
   (get_kappa_out_resolution ["models/prior_ratio_inferred.keras"]
      (fun v => "prior_ratio_" ++ v ++ ".keras") (TExpr.param "mass")
      "models/fs.keras" none "inferred" (Or.inl rfl)).2.2 (by decide),
   (get_kappa_out_resolution [] (fun v => "prior_ratio_" ++ v ++ ".keras")
      (TExpr.param "mass") "models/fs.keras" none "inferred"
      (Or.inl rfl)).2.1 (by decide),
   (get_kappa_out_resolution ["models/prior_ratio_sampled.keras"]
      (fun v => "prior_ratio_" ++ v ++ ".keras") (TExpr.param "mass")
      "models/fs.keras" none "sampled" (Or.inr rfl)).2.2 (by decide),
   (get_kappa_out_resolution [] (fun v => "prior_ratio_" ++ v ++ ".keras")
      (TExpr.param "mass") "models/fs.keras" none "sampled"
      (Or.inr rfl)).2.1 (by decide)⟩

/-- C9: the use_sigmoid flag is accepted by get_semi_weakly_weights and
get_semi_weakly_model but never read: for every state and every other
argument, two runs differing only in use_sigmoid produce equal results. -/
theorem use_sigmoid_is_never_read (w1 w2 : ℚ) (wmu walpha : Option ℚ)
    (wreg : Bool) (st : ModelLoaderState) (fsys : List String)
    (priorRatioBasename : String → String) (trainFeatures : List String)
    (fsModelPath : PathSpec) (m1 m2 mu alpha : ℚ) (kappa : KappaVal)
    (fsModelPath2 : Option PathSpec) (epsilon : ℚ)
    (bugFix useRegularizer : Bool) :
    getSemiWeaklyWeights w1 w2 wmu walpha true wreg
      = getSemiWeaklyWeights w1 w2 wmu walpha false wreg
  ∧ getSemiWeaklyModel st fsys priorRatioBasename trainFeatures fsModelPath
      m1 m2 mu alpha kappa fsModelPath2 epsilon bugFix true useRegularizer
      = getSemiWeaklyModel st fsys priorRatioBasename trainFeatures fsModelPath
          m1 m2 mu alpha kappa fsModelPath2 epsilon bugFix false useRegularizer :=
  ⟨rfl, rfl⟩

/-- C10: get_loss_fn with stored loss "nll" and no model type supplied does
not raise: the guard restricting NLL to semi-weakly models runs only when a
model type is supplied, so the NLL loss object is returned directly. -/
theorem nll_loss_without_model_type_ok (fl : FeatureLevel)
    (dm : List DecayMode) (sig uv : Bool) :
    getLossFn { featureLevel := fl, decayModes := dm, sigmoidActivation := sig,
                loss := "nll", useValidation := uv } none
      = Except.ok (LossFn.scaledNLL 0 1) := rfl

/-- C7 counterexample: constructing the loader with the invalid loss name
"foo" does not raise; __init__ returns normally with the invalid name
stored, because it writes the private attribute without running the
validating property setter. -/
theorem init_with_invalid_loss_does_not_raise :
    modelLoaderInit FeatureLevel.highLevel [DecayMode.qq] false "foo" true
      = Except.ok
          { featureLevel := FeatureLevel.highLevel, decayModes := [DecayMode.qq],
            sigmoidActivation := false, loss := "foo", useValidation := true } :=
  rfl

/-- C7 amended: construction with an invalid loss name succeeds and stores
the name unvalidated; the invalid-argument condition is raised later, at
the first use of the loss by get_loss_fn. -/
theorem invalid_loss_raises_at_first_use (fl : FeatureLevel)
    (dm : List DecayMode) (sig uv : Bool) (loss : String)
    (mt : Option ModelType) (h1 : loss ≠ "bce") (h2 : loss ≠ "nll") :
    modelLoaderInit fl dm sig loss uv
      = Except.ok
          { featureLevel := fl, decayModes := dm, sigmoidActivation := sig,
            loss := loss, useValidation := uv }
  ∧ getLossFn
      { featureLevel := fl, decayModes := dm, sigmoidActivation := sig,
        loss := loss, useValidation := uv } mt
      = .error (.valueError ("Invalid name for loss function: " ++ loss)) := by
  refine ⟨rfl, ?_⟩
  simp [getLossFn, h1, h2]

/-- Witness for the amended C7 at loss name "foo". -/
theorem invalid_loss_raises_at_first_use_witness :
    ("foo" : String) ≠ "bce" ∧ ("foo" : String) ≠ "nll"
  ∧ getLossFn
      { featureLevel := FeatureLevel.highLevel, decayModes := [DecayMode.qq],
        sigmoidActivation := false, loss := "foo", useValidation := true } none
      = .error (.valueError "Invalid name for loss function: foo") :=
  ⟨by decide, by decide,
   (invalid_loss_raises_at_first_use FeatureLevel.highLevel [DecayMode.qq]
     false true "foo" none (by decide) (by decide)).2⟩

/-- C8 counterexample: for the prior-ratio model type with use_validation
false, get_train_config still sets the early-stopping monitor to
"val_loss", not "loss": the prior-ratio branch hardcodes the monitor. -/
theorem prior_ratio_monitor_ignores_validation :
    (getTrainConfig
      { featureLevel := .highLevel, decayModes := [.qq],
        sigmoidActivation := false, loss := "bce", useValidation := false }
      "ckpt" (some ModelType.priorRatio) true none
      SaveFreq.epoch SaveFreq.epoch SaveFreq.epoch).map
      (fun c => c.callbacks.earlyStopping.monitor) = Except.ok "val_loss"
  ∧ ("val_loss" : String) ≠ "loss" :=
  ⟨rfl, by decide⟩

/-- C8 amended: for every model type other than the prior-ratio type, any
configuration returned by get_train_config sets the early-stopping monitor
to "val_loss" when a held-out validation set is configured and to "loss"
otherwise; the prior-ratio branch hardcodes "val_loss" regardless. -/
theorem train_config_monitor_non_prior_ratio (st : ModelLoaderState)
    (checkpointDir : String) (modelType : Option ModelType)
    (weightClipping : Bool) (epochs : Option Nat)
    (msf mef wsf : SaveFreq) (cfg : TrainConfig)
    (hmt : modelType ≠ some ModelType.priorRatio)
    (h : getTrainConfig st checkpointDir modelType weightClipping epochs
          msf mef wsf = Except.ok cfg) :
    cfg.callbacks.earlyStopping.monitor
      = (if st.useValidation then "val_loss" else "loss") := by
  obtain ⟨fl, dm, sig, loss, uv⟩ := st
  simp only [getTrainConfig] at h
  rw [if_neg hmt] at h
  cases hl : getLossFn ⟨fl, dm, sig, loss, uv⟩ modelType with
  | error e => rw [hl] at h; cases h
  | ok lf =>
    rw [hl] at h
    cases fl <;> cases uv <;> dsimp only at h <;>
      (repeat' split at h) <;>
      (injection h with h2; subst h2; simp_all)

/-- Witness for the amended C8: a semi-weakly configuration with a
validation set monitors "val_loss". -/
theorem train_config_monitor_non_prior_ratio_witness :
    (getTrainConfig
      { featureLevel := .highLevel, decayModes := [.qq],
        sigmoidActivation := false, loss := "bce", useValidation := true }
      "ckpt" (some ModelType.semiWeakly) true none
      SaveFreq.epoch SaveFreq.epoch SaveFreq.epoch).map
      (fun c => c.callbacks.earlyStopping.monitor) = Except.ok "val_loss" := by
  obtain ⟨cfg, hc⟩ :
      ∃ cfg, getTrainConfig
        { featureLevel := .highLevel, decayModes := [.qq],
          sigmoidActivation := false, loss := "bce", useValidation := true }
        "ckpt" (some ModelType.semiWeakly) true none
        SaveFreq.epoch SaveFreq.epoch SaveFreq.epoch = Except.ok cfg :=
    ⟨_, rfl⟩
  have hm := train_config_monitor_non_prior_ratio
    { featureLevel := .highLevel, decayModes := [.qq],
      sigmoidActivation := false, loss := "bce", useValidation := true }
    "ckpt" (some ModelType.semiWeakly) true none
    SaveFreq.epoch SaveFreq.epoch SaveFreq.epoch cfg (by decide) hc
  rw [hc]
  simp only [Except.map, hm, if_true]
